import Mathlib

/-!
Verification of the pennsieve-go-llm client SDK.

The Go sources are shallowly embedded: Go strings are lists of characters
(`Str`), Go byte slices are lists of `Nat` below 256, the filesystem is an
explicit partial map from paths to byte contents, and the opaque transports
(AWS Lambda invocation channel, Anthropic HTTPS endpoint) are explicit
function parameters.  Go functions returning `(T, error)` become functions
into explicit outcome types.
-/

namespace PennsieveLLM

/-- Go strings, embedded as lists of characters. -/
abbrev Str := List Char

/-! ## Data model (types.go) -/

/-- `ContentBlock` from types.go: a single content block within a message.
Unused fields keep Go zero values (empty strings). -/
structure ContentBlock where
  type : Str
  text : Str := []
  path : Str := []
  format : Str := []
  data : Str := []
  mediaType : Str := []
  name : Str := []
  deriving Repr, DecidableEq

/-- `Message` from types.go: a role plus ordered content blocks. -/
structure Message where
  role : Str
  content : List ContentBlock
  deriving Repr, DecidableEq

/-- `InvokeRequest` from types.go.  `maxTokens` is a Go `int32`, embedded as
`Int`; `temperature` (a Go `float32`) is only ever passed through, never
computed with, and is embedded as `Float`. -/
structure InvokeRequest where
  action : Str := []
  model : Str := []
  messages : List Message := []
  system : Str := []
  maxTokens : Int := 0
  temperature : Float := 0.0
  executionRunId : Str := []
  executionBudgetUsd : Float := 0.0

/-- `ResponseContent` from types.go. -/
structure ResponseContent where
  type : Str
  text : Str
  deriving Repr, DecidableEq

/-- `UsageInfo` from types.go; the cost field (a Go `float64`) is only
carried, never computed with. -/
structure UsageInfo where
  inputTokens : Int := 0
  outputTokens : Int := 0
  estimatedCostUsd : Float := 0.0

/-- `BudgetInfo` from types.go; the dollar fields are only carried. -/
structure BudgetInfo where
  budgetPeriod : Str := []
  periodBudgetUsd : Float := 0.0
  periodUsedUsd : Float := 0.0
  periodRemainingUsd : Float := 0.0
  executionBudgetUsd : Float := 0.0
  executionUsedUsd : Float := 0.0
  executionRemainingUsd : Float := 0.0

/-- `InvokeResponse` from types.go. -/
structure InvokeResponse where
  content : List ResponseContent := []
  model : Str := []
  usage : UsageInfo := {}
  budgetRemaining : BudgetInfo := {}
  stopReason : Str := []

/-- `ErrorResponse` from types.go: the governor error envelope. -/
structure ErrorResponse where
  error : Str := []
  message : Str := []
  allowedModels : List Str := []
  budgetRemaining : Option BudgetInfo := none
  maxSizeBytes : Int := 0
  retryAfterSec : Int := 0
  model : Str := []

/-- `GovernorError` from errors.go: structured failure raised from an
`ErrorResponse` envelope. -/
structure GovernorError where
  code : Str
  msg : Str
  allowedModels : List Str
  budgetRemaining : Option BudgetInfo
  retryAfterSec : Int

/-! ## Model catalog (models.go) and model-id mapping (backend_anthropic.go) -/

/-- `ModelHaiku45` from models.go. -/
def ModelHaiku45 : Str := "us.anthropic.claude-haiku-4-5-20251001-v1:0".data

/-- `ModelSonnet45` from models.go. -/
def ModelSonnet45 : Str := "us.anthropic.claude-sonnet-4-5-20250929-v1:0".data

/-- `ModelSonnet46` from models.go. -/
def ModelSonnet46 : Str := "us.anthropic.claude-sonnet-4-6".data

/-- `ModelSonnet4` from models.go. -/
def ModelSonnet4 : Str := "us.anthropic.claude-sonnet-4-20250514-v1:0".data

/-- Association-list lookup, embedding a Go `map[string]string` literal
read-only lookup `m[key]`. -/
def lookupStr : List (Str × Str) → Str → Option Str
  | [], _ => none
  | (k, v) :: rest, key => if key = k then some v else lookupStr rest key

/-- `modelMap` from backend_anthropic.go: Bedrock inference profile IDs to
Anthropic API model names (a Go map literal, embedded as an association
list; the Go map has distinct keys, so lookup order is irrelevant). -/
def modelMap : List (Str × Str) :=
  [ (ModelHaiku45, "claude-haiku-4-5-20251001".data)
  , (ModelSonnet45, "claude-sonnet-4-5-20250929".data)
  , (ModelSonnet46, "claude-sonnet-4-6".data)
  , (ModelSonnet4, "claude-sonnet-4-20250514".data) ]

/-- The vendor prefix tested by `MapModel`. -/
def usAnthropicDot : Str := "us.anthropic.".data

/-- `MapModel` from backend_anthropic.go: table lookup, else strip the
`us.anthropic.` prefix (Go `strings.HasPrefix` plus `strings.TrimPrefix`),
else pass through unchanged. -/
def MapModel (bedrockID : Str) : Str :=
  match lookupStr modelMap bedrockID with
  | some name => name
  | none =>
    if usAnthropicDot.isPrefixOf bedrockID then
      bedrockID.drop usAnthropicDot.length
    else
      bedrockID

/-! ## Media types and file extensions (backend_anthropic.go) -/

/-- `docMediaTypes` lookup wrapped by `docMediaType` in backend_anthropic.go:
the Go map literal from file extensions to MIME types, embedded as a
decision chain (map keys are distinct, so this is equivalent). -/
def docMediaType (ext : Str) : Str :=
  if ext = "pdf".data then "application/pdf".data
  else if ext = "csv".data then "text/csv".data
  else if ext = "txt".data then "text/plain".data
  else if ext = "md".data then "text/markdown".data
  else if ext = "html".data then "text/html".data
  else "application/octet-stream".data

/-- Helper for `filepathExt`: scans the path right to left; `acc` holds the
characters already passed, in original order.  Stops with the extension at
the first dot, or empty at a path separator or the start. -/
def extRevAux : List Char → List Char → Str
  | [], _ => []
  | c :: rest, acc =>
    if c = '/' then []
    else if c = '.' then '.' :: acc
    else extRevAux rest (c :: acc)

/-- Models Go's `filepath.Ext` (used by `convertEFSDocument`): the suffix
beginning at the final dot in the final slash-separated element of the
path; empty when there is no dot. -/
def filepathExt (path : Str) : Str :=
  extRevAux path.reverse []

/-! ## Base64 (Go `encoding/base64` StdEncoding, used by
`convertEFSDocument`).  Modelled from the standard RFC 4648 encoding with
padding, which is what `base64.StdEncoding.EncodeToString` implements.
Bytes are `Nat` values below 256. -/

/-- The standard base64 alphabet. -/
def b64Alphabet : List Char :=
  "ABCDEFGHIJKLMNOPQRSTUVWXYZabcdefghijklmnopqrstuvwxyz0123456789+/".data

/-- Sextet value (0..63) to base64 character. -/
def sixToChar (n : Nat) : Char := b64Alphabet.getD n 'A'

/-- Base64 character back to its sextet value. -/
def charToSix (c : Char) : Option Nat :=
  let i := b64Alphabet.indexOf c
  if i < 64 then some i else none

/-- One symbol of a base64 stream: a data sextet, the padding character,
or an out-of-alphabet character. -/
inductive B64Sym where
  | six (n : Nat)
  | pad
  | bad
  deriving Repr, DecidableEq

/-- Bytes to base64 symbols, three bytes to four sextets, with the
standard padding on a final chunk of one or two bytes. -/
def bytesToSyms : List Nat → List B64Sym
  | a :: b :: c :: rest =>
    .six (a / 4) :: .six (a % 4 * 16 + b / 16) :: .six (b % 16 * 4 + c / 64)
      :: .six (c % 64) :: bytesToSyms rest
  | [a, b] => [.six (a / 4), .six (a % 4 * 16 + b / 16), .six (b % 16 * 4), .pad]
  | [a] => [.six (a / 4), .six (a % 4 * 16), .pad, .pad]
  | [] => []

/-- Base64 symbol to output character. -/
def symToChar : B64Sym → Char
  | .six n => sixToChar n
  | .pad => '='
  | .bad => '='

/-- Classify an input character for decoding. -/
def charToSym (c : Char) : B64Sym :=
  if c = '=' then .pad
  else
    match charToSix c with
    | some n => .six n
    | none => .bad

/-- `base64.StdEncoding.EncodeToString`. -/
def b64Encode (bs : List Nat) : Str :=
  (bytesToSyms bs).map symToChar

/-- Decode a classified base64 symbol stream back to bytes. -/
def decodeSyms : List B64Sym → Option (List Nat)
  | [] => some []
  | [.six w, .six x, .pad, .pad] => some [w * 4 + x / 16]
  | [.six w, .six x, .six y, .pad] => some [w * 4 + x / 16, x % 16 * 16 + y / 4]
  | .six w :: .six x :: .six y :: .six z :: rest =>
    (decodeSyms rest).map fun tl =>
      (w * 4 + x / 16) :: (x % 16 * 16 + y / 4) :: (y % 4 * 64 + z) :: tl
  | _ => none

/-- `base64.StdEncoding.DecodeString`. -/
def b64Decode (s : Str) : Option (List Nat) :=
  decodeSyms (s.map charToSym)

/-! ## Content block codec (backend_anthropic.go) -/

/-- The filesystem seen by `os.ReadFile`: a path either holds readable
byte contents or reading it fails. -/
abbrev FileSys := Str → Option (List Nat)

/-- The `source` object of an Anthropic wire image/document block. -/
structure WireSource where
  type : Str
  mediaType : Str
  data : Str
  deriving Repr, DecidableEq

/-- The Anthropic wire representation of one content block, as built by
`convertContentBlock` (a Go `map[string]interface{}` whose `type` key is
one of `text`, `image`, `document`). -/
inductive WireBlock where
  | text (t : Str)
  | image (source : WireSource)
  | document (source : WireSource)
  deriving Repr, DecidableEq

/-- `convertEFSDocument` from backend_anthropic.go: read the file at the
block path and produce a base64 document block; degrade to a placeholder
text block on an empty path or a read failure. -/
def convertEFSDocument (fs : FileSys) (block : ContentBlock) : WireBlock :=
  if block.path = [] then
    .text "[File not available locally: empty path]".data
  else
    match fs block.path with
    | none =>
      .text ("[File not available locally: ".data ++ block.path ++ "]".data)
    | some data =>
      let e := filepathExt block.path
      let ext := if (".".data).isPrefixOf e then e.drop 1 else e
      .document ⟨"base64".data, docMediaType ext, b64Encode data⟩

/-- `convertContentBlock` from backend_anthropic.go: the switch over the
block type, with the unknown-type fallback. -/
def convertContentBlock (fs : FileSys) (block : ContentBlock) : WireBlock :=
  if block.type = "text".data then
    .text block.text
  else if block.type = "image".data then
    let mediaType :=
      if block.mediaType = [] ∧ block.format ≠ [] then "image/".data ++ block.format
      else block.mediaType
    .image ⟨"base64".data, mediaType, block.data⟩
  else if block.type = "document".data then
    let mediaType :=
      if block.mediaType = [] then docMediaType block.format
      else block.mediaType
    .document ⟨"base64".data, mediaType, block.data⟩
  else if block.type = "efs_document".data then
    convertEFSDocument fs block
  else
    .text ("[Unsupported content block: ".data ++ block.type ++ "]".data)

/-- One converted message on the Anthropic wire. -/
structure WireMessage where
  role : Str
  content : List WireBlock
  deriving Repr, DecidableEq

/-- `convertMessages` from backend_anthropic.go. -/
def convertMessages (fs : FileSys) (messages : List Message) : List WireMessage :=
  messages.map fun msg => ⟨msg.role, msg.content.map (convertContentBlock fs)⟩

/-! ## Direct-provider backend (backend_anthropic.go `Invoke`) -/

/-- `anthropicContentBlock` from backend_anthropic.go. -/
structure AnthropicContentBlock where
  type : Str
  text : Str
  deriving Repr, DecidableEq

/-- The `usage` object of `anthropicResponse`. -/
structure AnthropicUsage where
  inputTokens : Int := 0
  outputTokens : Int := 0
  deriving Repr, DecidableEq

/-- `anthropicResponse` from backend_anthropic.go. -/
structure AnthropicResponse where
  content : List AnthropicContentBlock := []
  model : Str := []
  stopReason : Str := []
  usage : AnthropicUsage := {}
  deriving Repr, DecidableEq

/-- `anthropicRequest` from backend_anthropic.go: the provider request
built by `Invoke`. -/
structure AnthropicRequest where
  model : Str
  maxTokens : Int
  system : Str
  temperature : Float
  messages : List WireMessage

/-- What the HTTPS transport gives back for one request: the status code
and the body, with the body abstracted by what its two trial
deserializations yield (`asError` is present exactly when the error
envelope parses with a non-empty message; `asSuccess` when the body parses
as `anthropicResponse`). -/
structure HttpReply where
  status : Int
  asError : Option (Str × Str) := none
  asSuccess : Option AnthropicResponse := none

/-- Outcome of `(*AnthropicBackend).Invoke`: the error constructors keep
the ingredients of the formatted Go error messages. -/
inductive AnthropicOutcome where
  | ok (resp : InvokeResponse)
  | apiError (errType errMsg : Str)
  | statusError (status : Int) (body : Option AnthropicResponse)
  | decodeError

/-- `(*AnthropicBackend).Invoke` from backend_anthropic.go, with the HTTP
round trip abstracted as a function from the built request to a reply. -/
def anthropicInvoke (fs : FileSys) (transport : AnthropicRequest → HttpReply)
    (req : InvokeRequest) : AnthropicOutcome :=
  let model := MapModel req.model
  let maxTokens := if req.maxTokens = 0 then 1024 else req.maxTokens
  let apiReq : AnthropicRequest :=
    ⟨model, maxTokens, req.system, req.temperature, convertMessages fs req.messages⟩
  let reply := transport apiReq
  if reply.status ≠ 200 then
    match reply.asError with
    | some (t, m) => .apiError t m
    | none => .statusError reply.status reply.asSuccess
  else
    match reply.asSuccess with
    | none => .decodeError
    | some apiResp =>
      .ok
        { content :=
            (apiResp.content.filter fun block => block.type = "text".data).map
              fun block => ⟨"text".data, block.text⟩
        , model := apiResp.model
        , usage :=
            { inputTokens := apiResp.usage.inputTokens
            , outputTokens := apiResp.usage.outputTokens }
        , stopReason := apiResp.stopReason }

/-! ## Remote-service backend (backend_lambda.go) and legacy client
(governor.go) -/

/-- The reply the Lambda invocation channel hands back for one payload:
an optional transport-level `FunctionError`, and the reply payload
abstracted by its two trial deserializations (`asErrorResponse` is `none`
exactly when unmarshalling into `ErrorResponse` errors; `asSuccess` is
`none` exactly when unmarshalling into the expected success type errors). -/
structure LambdaReply (α : Type) where
  functionError : Option Str := none
  asErrorResponse : Option ErrorResponse := none
  asSuccess : Option α := none

/-- Outcome of one governor call: success, a pre-flight configuration
error, a plain transport error, a structured `GovernorError`, or an
unmarshalling failure.  Only `governorError` is a `*GovernorError` in Go;
the other error constructors are plain `fmt.Errorf` values. -/
inductive CallOutcome (α : Type) where
  | ok (a : α)
  | configError (msg : Str)
  | transportError (msg : Str)
  | governorError (e : GovernorError)
  | decodeError (msg : Str)

/-- `(*LambdaBackend).call` from backend_lambda.go (identical reply
handling to the legacy `(*Governor).invoke` in governor.go): a
`FunctionError` becomes a plain transport error; an `ErrorResponse`
envelope with a non-empty `error` field becomes a `GovernorError`;
otherwise the expected success shape is decoded. -/
def lambdaCall {α : Type} (reply : LambdaReply α) : CallOutcome α :=
  match reply.functionError with
  | some fe => .transportError ("governor function error: ".data ++ fe)
  | none =>
    let successPath : CallOutcome α :=
      match reply.asSuccess with
      | some a => .ok a
      | none => .decodeError "failed to unmarshal response".data
    match reply.asErrorResponse with
    | some er =>
      if er.error ≠ [] then
        .governorError ⟨er.error, er.message, er.allowedModels,
          er.budgetRemaining, er.retryAfterSec⟩
      else successPath
    | none => successPath

/-- The legacy Lambda-only `Governor` of governor.go (no backend field). -/
structure LegacyGovernor where
  functionName : Str
  executionRunID : Str

/-- The configuration error message of the legacy `(*Governor).Invoke`. -/
def runIdRequiredMsg : Str :=
  "executionRunId is required: set EXECUTION_RUN_ID env var or use WithExecutionRunID option".data

/-- The configuration error message of the legacy `(*Governor).invoke`
when no function name is configured. -/
def notAvailableMsg : Str :=
  "LLM governor not available: LLM_GOVERNOR_FUNCTION is not set".data

/-- The legacy `(*Governor).invoke` of governor.go: availability check,
then the Lambda round trip (marshalling and the invocation channel are
abstracted into `tr`). -/
def legacyLowInvoke (g : LegacyGovernor)
    (tr : InvokeRequest → LambdaReply InvokeResponse)
    (req : InvokeRequest) : CallOutcome InvokeResponse :=
  if g.functionName = [] then .configError notAvailableMsg
  else lambdaCall (tr req)

/-- The legacy `(*Governor).Invoke` of governor.go: defaults `action` and
`executionRunId`, then fails with a configuration error when
`executionRunId` is still empty, before any request is sent. -/
def legacyInvoke (g : LegacyGovernor)
    (tr : InvokeRequest → LambdaReply InvokeResponse)
    (req : InvokeRequest) : CallOutcome InvokeResponse :=
  let req1 := if req.action = [] then { req with action := "invoke".data } else req
  let req2 :=
    if req1.executionRunId = [] then { req1 with executionRunId := g.executionRunID }
    else req1
  if req2.executionRunId = [] then .configError runIdRequiredMsg
  else legacyLowInvoke g tr req2

/-! ## Backend-selecting facade (the newer governor.go bundled with the
README) -/

/-- Which concrete `Backend` implementation a `Governor` holds. -/
inductive BackendKind where
  | lambda
  | anthropic
  | mock
  deriving Repr, DecidableEq

/-- The backend-selecting `Governor` of the newer governor.go, with the
held backend abstracted to its kind (its behavior is passed separately
where needed). -/
structure Governor where
  functionName : Str := []
  executionRunID : Str := []
  backendKind : BackendKind

/-- The backend-selection switch of `NewGovernor`: an explicit
`WithBackend` option wins; else a non-empty function name (environment
`LLM_GOVERNOR_FUNCTION` or `WithFunctionName`) selects the Lambda
backend; else a non-empty `ANTHROPIC_API_KEY` selects the Anthropic
backend; else the mock.  `functionName` and `apiKey` are the values after
options are applied. -/
def selectBackendKind (explicitBackend : Option BackendKind)
    (functionName apiKey : Str) : BackendKind :=
  match explicitBackend with
  | some b => b
  | none =>
    if functionName ≠ [] then .lambda
    else if apiKey ≠ [] then .anthropic
    else .mock

/-- `(*Governor).Available` of the newer governor.go: a type assertion
against `*MockBackend`, negated. -/
def availableKind (k : BackendKind) : Bool :=
  decide (k ≠ .mock)

/-- `(*Governor).Invoke` of the newer governor.go: defaults `action` and
`executionRunId`, then delegates to the active backend unconditionally
(`backendInvoke` is the active backend's `Invoke`). -/
def facadeInvoke (backendInvoke : InvokeRequest → CallOutcome InvokeResponse)
    (g : Governor) (req : InvokeRequest) : CallOutcome InvokeResponse :=
  let req1 := if req.action = [] then { req with action := "invoke".data } else req
  let req2 :=
    if req1.executionRunId = [] then { req1 with executionRunId := g.executionRunID }
    else req1
  backendInvoke req2

/-! ## Mock backend (backend_mock.go) -/

/-- The mutable state of a `MockBackend`: the registered response queue
and the call log. -/
structure MockState where
  responses : List InvokeResponse := []
  callLog : List InvokeRequest := []

/-- Result of one `(*MockBackend).Invoke` call: the state after the call,
the returned response, and the returned Go error (always `nil`). -/
structure MockResult where
  state : MockState
  resp : InvokeResponse
  err : Option Str

/-- The inner loop of the mock's default echo: the first block with type
`text` and non-empty text. -/
def firstTextOf : List ContentBlock → Str
  | [] => []
  | b :: bs =>
    if b.type = "text".data ∧ b.text ≠ [] then b.text else firstTextOf bs

/-- The outer loop of the mock's default echo, on the reversed message
list: at the first message with role `user`, take `firstTextOf` its
content (and stop looking at earlier messages either way). -/
def lastUserPromptAux : List Message → Str
  | [] => []
  | m :: rest =>
    if m.role = "user".data then firstTextOf m.content
    else lastUserPromptAux rest

/-- The prompt text the mock echoes: the Go loop scans messages from the
last to the first. -/
def promptOf (msgs : List Message) : Str :=
  lastUserPromptAux msgs.reverse

/-- `SetResponse` from backend_mock.go. -/
def mockSetResponse (st : MockState) (resp : InvokeResponse) : MockState :=
  { st with responses := [resp] }

/-- `SetResponses` from backend_mock.go. -/
def mockSetResponses (st : MockState) (responses : List InvokeResponse) : MockState :=
  { st with responses := responses }

/-- `(*MockBackend).Invoke` from backend_mock.go: log the request; pop and
return the head of the queue while more than one response remains, return
the last registered response forever once one remains, and synthesize the
`[mock]` echo when none is registered.  The Go error return is always
`nil`. -/
def mockInvoke (st : MockState) (req : InvokeRequest) : MockResult :=
  let st1 : MockState := { st with callLog := st.callLog ++ [req] }
  match st1.responses with
  | r :: rest =>
    match rest with
    | _ :: _ => ⟨{ st1 with responses := rest }, r, none⟩
    | [] => ⟨st1, r, none⟩
  | [] =>
    ⟨st1,
      { content := [⟨"text".data, "[mock] ".data ++ promptOf req.messages⟩]
      , model := req.model
      , stopReason := "end_turn".data }
    , none⟩

/-- The response of the i-th `Invoke` call on the mock, counting from 1:
`mockRun st req (i - 1)` feeds the state through repeated calls of the
same request. -/
def mockRun (st : MockState) (req : InvokeRequest) : Nat → InvokeResponse
  | 0 => (mockInvoke st req).resp
  | n + 1 => mockRun (mockInvoke st req).state req n

/-! ## Concrete inputs used by witnesses and counterexamples -/

/-- A facade whose active backend is the Lambda backend and whose default
execution run id is empty. -/
def lambdaGovernorNoRunId : Governor :=
  { functionName := "my-governor".data, executionRunID := [], backendKind := .lambda }

/-- A request with empty `action` and empty `executionRunId`. -/
def requestNoRunId : InvokeRequest :=
  { model := ModelHaiku45
  , messages := [⟨"user".data, [{ type := "text".data, text := "Hello".data }]⟩] }

/-- A stub success response for the abstracted Lambda backend. -/
def stubResponse : InvokeResponse :=
  { content := [⟨"text".data, "ok".data⟩] }

/-- A backend whose `Invoke` always succeeds with `stubResponse`. -/
def stubBackendInvoke : InvokeRequest → CallOutcome InvokeResponse :=
  fun _ => .ok stubResponse

/-! ## Theorems -/

/-- Claim C5: `MapModel` returns the table's native name for every key of
the explicit mapping table; for an id outside the table that starts with
the vendor prefix `us.anthropic.` it returns the id with exactly that
prefix removed; every other id passes through unchanged. -/
theorem mapModel_spec :
    (MapModel ModelHaiku45 = "claude-haiku-4-5-20251001".data
      ∧ MapModel ModelSonnet45 = "claude-sonnet-4-5-20250929".data
      ∧ MapModel ModelSonnet46 = "claude-sonnet-4-6".data
      ∧ MapModel ModelSonnet4 = "claude-sonnet-4-20250514".data)
    ∧ (∀ rest : Str, lookupStr modelMap (usAnthropicDot ++ rest) = none →
        MapModel (usAnthropicDot ++ rest) = rest)
    ∧ (∀ id : Str, lookupStr modelMap id = none →
        usAnthropicDot.isPrefixOf id = false → MapModel id = id) := by
  refine ⟨⟨by decide, by decide, by decide, by decide⟩, ?_, ?_⟩
  · intro rest h
    have hpre : usAnthropicDot.isPrefixOf (usAnthropicDot ++ rest) = true := by
      rw [List.isPrefixOf_iff_prefix]
      exact List.prefix_append _ _
    simp only [MapModel, h, hpre, if_true, List.drop_left]
  · intro id h hpre
    simp only [MapModel, h, hpre, Bool.false_eq_true, if_false]

/-- Witness for C5 at concrete inputs: an unseen id with the vendor prefix
is stripped; a totally unknown id passes through. -/
theorem mapModel_spec_witness :
    MapModel (usAnthropicDot ++ "claude-future-model".data) = "claude-future-model".data
    ∧ MapModel ("some-other-model".data) = "some-other-model".data :=
  ⟨mapModel_spec.2.1 ("claude-future-model".data) (by decide),
   mapModel_spec.2.2 ("some-other-model".data) (by decide) (by decide)⟩

/-- Claim C4: backend selection precedence at construction — explicit
backend always wins; else a configured function name selects the Lambda
backend; else a present API key selects the Anthropic backend; else the
mock — and `Available()` holds exactly when the selected backend is not
the mock. -/
theorem backend_selection_spec :
    (∀ (b : BackendKind) (fn key : Str), selectBackendKind (some b) fn key = b)
    ∧ (∀ fn key : Str, fn ≠ [] → selectBackendKind none fn key = .lambda)
    ∧ (∀ key : Str, key ≠ [] → selectBackendKind none [] key = .anthropic)
    ∧ selectBackendKind none [] [] = .mock
    ∧ (∀ k : BackendKind, availableKind k = true ↔ k ≠ .mock) := by
  refine ⟨fun b fn key => rfl, ?_, ?_, rfl, ?_⟩
  · intro fn key h
    simp [selectBackendKind, h]
  · intro key h
    simp [selectBackendKind, h]
  · intro k
    simp [availableKind]

/-- Witness for C4 at concrete inputs: no configuration selects the mock;
a function name selects Lambda (available); an explicit mock backend
overrides other configuration. -/
theorem backend_selection_witness :
    selectBackendKind none [] [] = .mock
    ∧ selectBackendKind none ("my-func".data) [] = .lambda
    ∧ selectBackendKind (some .mock) ("my-func".data) ("sk-ant-test".data) = .mock
    ∧ availableKind .lambda = true := by
  obtain ⟨h1, h2, _, h4, h5⟩ := backend_selection_spec
  exact ⟨h4, h2 _ _ (by decide), h1 _ _ _, (h5 .lambda).2 (by decide)⟩

/-- Claim C2: the content-block conversion is total and degrades in-band —
an `efs_document` block with an empty path becomes the empty-path
placeholder text block, an `efs_document` block whose path cannot be read
becomes the file-not-available placeholder, and a block of unknown type
becomes the unsupported-block placeholder.  Totality is structural: the
function returns a `WireBlock` for every input and has no failure
outcome. -/
theorem convert_degradation_spec (fs : FileSys) (block : ContentBlock) :
    (block.type = "efs_document".data → block.path = [] →
      convertContentBlock fs block = .text "[File not available locally: empty path]".data)
    ∧ (block.type = "efs_document".data → block.path ≠ [] → fs block.path = none →
      convertContentBlock fs block
        = .text ("[File not available locally: ".data ++ block.path ++ "]".data))
    ∧ (block.type ≠ "text".data → block.type ≠ "image".data →
        block.type ≠ "document".data → block.type ≠ "efs_document".data →
      convertContentBlock fs block
        = .text ("[Unsupported content block: ".data ++ block.type ++ "]".data)) := by
  have e1 : ("efs_document".data : Str) ≠ "text".data := by decide
  have e2 : ("efs_document".data : Str) ≠ "image".data := by decide
  have e3 : ("efs_document".data : Str) ≠ "document".data := by decide
  refine ⟨?_, ?_, ?_⟩
  · intro h1 h2
    simp [convertContentBlock, convertEFSDocument, h1, h2, e1, e2, e3]
  · intro h1 h2 h3
    simp [convertContentBlock, convertEFSDocument, h1, h2, h3, e1, e2, e3]
  · intro ht hi hd he
    simp [convertContentBlock, ht, hi, hd, he]

/-- Witness for C2 at concrete inputs: an unreadable path, an unknown
block type, and an empty path all produce the in-band placeholder. -/
theorem convert_degradation_witness :
    convertContentBlock (fun _ => none)
        { type := "efs_document".data, path := "missing.txt".data }
      = .text ("[File not available locally: ".data ++ "missing.txt".data ++ "]".data)
    ∧ convertContentBlock (fun _ => none) { type := "unknown_type".data }
      = .text ("[Unsupported content block: ".data ++ "unknown_type".data ++ "]".data)
    ∧ convertContentBlock (fun _ => none) { type := "efs_document".data }
      = .text "[File not available locally: empty path]".data :=
  ⟨(convert_degradation_spec _ _).2.1 rfl (by decide) rfl,
   (convert_degradation_spec _ _).2.2 (by decide) (by decide) (by decide) (by decide),
   (convert_degradation_spec _ _).1 rfl rfl⟩

/-- Claim C3: the Lambda backend call converts a reply whose
`ErrorResponse` envelope carries a non-empty `error` into a
`GovernorError` with exactly those fields; otherwise decodes the success
shape and returns it; and a transport-level `FunctionError` becomes a
plain formatted error that is never a `GovernorError`. -/
theorem lambda_call_spec {α : Type} :
    (∀ (reply : LambdaReply α) (er : ErrorResponse),
      reply.functionError = none → reply.asErrorResponse = some er → er.error ≠ [] →
      lambdaCall reply = .governorError
        ⟨er.error, er.message, er.allowedModels, er.budgetRemaining, er.retryAfterSec⟩)
    ∧ (∀ (reply : LambdaReply α) (a : α),
      reply.functionError = none →
      (∀ er, reply.asErrorResponse = some er → er.error = []) →
      reply.asSuccess = some a →
      lambdaCall reply = .ok a)
    ∧ (∀ (reply : LambdaReply α) (fe : Str),
      reply.functionError = some fe →
      lambdaCall reply = .transportError ("governor function error: ".data ++ fe)
        ∧ ∀ e : GovernorError, lambdaCall reply ≠ .governorError e) := by
  refine ⟨?_, ?_, ?_⟩
  · intro reply er h1 h2 h3
    simp [lambdaCall, h1, h2, h3]
  · intro reply a h1 h2 h3
    rcases herr : reply.asErrorResponse with _ | er
    · simp [lambdaCall, h1, herr, h3]
    · have := h2 er herr
      simp [lambdaCall, h1, herr, h3, this]
  · intro reply fe h1
    refine ⟨by simp [lambdaCall, h1], ?_⟩
    intro e
    simp [lambdaCall, h1]

/-- Witness for C3 at a concrete reply: a `budget_exceeded` envelope
becomes the matching `GovernorError`. -/
theorem lambda_call_spec_witness :
    lambdaCall (α := InvokeResponse)
        { asErrorResponse := some { error := "budget_exceeded".data, message := "over".data } }
      = .governorError ⟨"budget_exceeded".data, "over".data, [], none, 0⟩ :=
  lambda_call_spec.1 _ _ rfl rfl (by decide)

/-- Counterexample to C1 as stated: on the backend-selecting facade with
the Lambda backend active, an empty request `executionRunId` and an empty
facade default, `Invoke` does not return a configuration error — it
delegates to the backend (the request is sent) and returns the backend's
success. -/
theorem facade_invoke_no_runid_check :
    lambdaGovernorNoRunId.backendKind = .lambda
    ∧ requestNoRunId.executionRunId = []
    ∧ lambdaGovernorNoRunId.executionRunID = []
    ∧ facadeInvoke stubBackendInvoke lambdaGovernorNoRunId requestNoRunId
        = .ok stubResponse :=
  ⟨rfl, rfl, rfl, rfl⟩

/-- Amended C1: both `Invoke` variants default `action` to `invoke` and
`executionRunId` to the client's configured default; the backend-selecting
facade then delegates to the active backend unconditionally — even when
the defaulted `executionRunId` is still empty and the active backend is
the Lambda backend — while the legacy Lambda-only client returns the
configuration error whenever the defaulted `executionRunId` is empty,
before any request is sent (its outcome does not depend on the
transport). -/
theorem invoke_run_id_defaulting :
    (∀ (bf : InvokeRequest → CallOutcome InvokeResponse) (g : Governor)
        (req : InvokeRequest),
      facadeInvoke bf g req
        = bf { req with
                action := if req.action = [] then "invoke".data else req.action
              , executionRunId :=
                  if req.executionRunId = [] then g.executionRunID
                  else req.executionRunId })
    ∧ (∀ (g : LegacyGovernor) (tr tr2 : InvokeRequest → LambdaReply InvokeResponse)
        (req : InvokeRequest),
      req.executionRunId = [] → g.executionRunID = [] →
      legacyInvoke g tr req = .configError runIdRequiredMsg
        ∧ legacyInvoke g tr req = legacyInvoke g tr2 req) := by
  constructor
  · intro bf g req
    unfold facadeInvoke
    by_cases h1 : req.action = [] <;> by_cases h2 : req.executionRunId = [] <;>
      simp [h1, h2]
  · intro g tr tr2 req h1 h2
    constructor <;>
      by_cases ha : req.action = [] <;>
        simp [legacyInvoke, ha, h1, h2]

/-- Witness for amended C1 at concrete inputs: the facade delegates with
the defaulted request, and the legacy client fails fast with the
configuration error. -/
theorem invoke_run_id_defaulting_witness :
    facadeInvoke stubBackendInvoke lambdaGovernorNoRunId requestNoRunId
      = stubBackendInvoke
          { requestNoRunId with action := "invoke".data, executionRunId := [] }
    ∧ legacyInvoke ⟨"my-governor".data, []⟩ (fun _ => {}) requestNoRunId
        = .configError runIdRequiredMsg := by
  obtain ⟨h1, h2⟩ := invoke_run_id_defaulting
  refine ⟨(h1 stubBackendInvoke lambdaGovernorNoRunId requestNoRunId).trans ?_, ?_⟩
  · rfl
  · exact (h2 ⟨"my-governor".data, []⟩ (fun _ => {}) (fun _ => {}) requestNoRunId rfl rfl).1

/-! ### Mock backend lemmas -/

/-- `firstTextOf` skips a prefix with no non-empty text block. -/
theorem firstTextOf_append (b1 b2 : List ContentBlock)
    (h : ∀ b ∈ b1, ¬(b.type = "text".data ∧ b.text ≠ [])) :
    firstTextOf (b1 ++ b2) = firstTextOf b2 := by
  induction b1 with
  | nil => rfl
  | cons b bs ih =>
    have hb := h b (by simp)
    simp only [List.cons_append, firstTextOf, if_neg hb]
    exact ih fun b' hb' => h b' (by simp [hb'])

/-- `firstTextOf` is empty on a list with no non-empty text block. -/
theorem firstTextOf_eq_nil (bs : List ContentBlock)
    (h : ∀ b ∈ bs, ¬(b.type = "text".data ∧ b.text ≠ [])) :
    firstTextOf bs = [] := by
  have := firstTextOf_append bs [] h
  simpa using this

/-- `lastUserPromptAux` skips a prefix with no user message. -/
theorem lastUserPromptAux_append (l1 l2 : List Message)
    (h : ∀ m ∈ l1, m.role ≠ "user".data) :
    lastUserPromptAux (l1 ++ l2) = lastUserPromptAux l2 := by
  induction l1 with
  | nil => rfl
  | cons m ms ih =>
    have hm := h m (by simp)
    simp only [List.cons_append, lastUserPromptAux, if_neg hm]
    exact ih fun m' hm' => h m' (by simp [hm'])

/-- `lastUserPromptAux` is empty on a list with no user message. -/
theorem lastUserPromptAux_eq_nil (l : List Message)
    (h : ∀ m ∈ l, m.role ≠ "user".data) :
    lastUserPromptAux l = [] := by
  have := lastUserPromptAux_append l [] h
  simpa using this

/-- The prompt the mock echoes, for a message list whose most recent user
message is exhibited: it is `firstTextOf` that message's content. -/
theorem promptOf_decomp (pre post : List Message) (blocks : List ContentBlock)
    (hpost : ∀ m ∈ post, m.role ≠ "user".data) :
    promptOf (pre ++ ⟨"user".data, blocks⟩ :: post) = firstTextOf blocks := by
  unfold promptOf
  rw [List.reverse_append, List.reverse_cons]
  rw [show post.reverse ++ [(⟨"user".data, blocks⟩ : Message)] ++ pre.reverse
        = post.reverse ++ (⟨"user".data, blocks⟩ : Message) :: pre.reverse by simp]
  rw [lastUserPromptAux_append post.reverse _ (fun m hm => hpost m (by simpa using hm))]
  simp [lastUserPromptAux]

/-- Claim C8: with no registered responses, the mock synthesizes a
response whose single text block is `[mock] ` followed by the first
non-empty text block of the most recent user message, with
`stopReason = end_turn` and the requested model echoed. -/
theorem mock_default_echo (st : MockState) (req : InvokeRequest)
    (pre post : List Message) (bpre brest : List ContentBlock)
    (b : ContentBlock)
    (hresp : st.responses = [])
    (hmsgs : req.messages = pre ++ ⟨"user".data, bpre ++ b :: brest⟩ :: post)
    (hpost : ∀ m ∈ post, m.role ≠ "user".data)
    (hb : b.type = "text".data) (hbt : b.text ≠ [])
    (hbpre : ∀ bp ∈ bpre, ¬(bp.type = "text".data ∧ bp.text ≠ [])) :
    (mockInvoke st req).resp
      = { content := [⟨"text".data, "[mock] ".data ++ b.text⟩]
        , model := req.model
        , stopReason := "end_turn".data } := by
  have hprompt : promptOf req.messages = b.text := by
    rw [hmsgs, promptOf_decomp _ _ _ hpost, firstTextOf_append _ _ hbpre]
    simp [firstTextOf, hb, hbt]
  simp only [mockInvoke, hresp, hprompt]

/-- Witness for C8: a single user text block `Hello world` yields
response text exactly `[mock] Hello world`. -/
theorem mock_default_echo_witness :
    (mockInvoke {}
        { model := ModelHaiku45
        , messages := [⟨"user".data, [{ type := "text".data, text := "Hello world".data }]⟩] }).resp
      = { content := [⟨"text".data, "[mock] Hello world".data⟩]
        , model := ModelHaiku45
        , stopReason := "end_turn".data } := by
  have h := mock_default_echo {}
    { model := ModelHaiku45
    , messages := [⟨"user".data, [{ type := "text".data, text := "Hello world".data }]⟩] }
    [] [] [] [] { type := "text".data, text := "Hello world".data }
    rfl rfl (by simp) rfl (by decide) (by simp)
  exact h

/-- The queue behaviour of the mock, phrased for the (n+1)-st call. -/
theorem mockRun_getD (req : InvokeRequest) (n : Nat) :
    ∀ st : MockState, st.responses ≠ [] →
      mockRun st req n
        = st.responses.getD (min (n + 1) st.responses.length - 1) {} := by
  induction n with
  | zero =>
    intro st hne
    rcases hr : st.responses with _ | ⟨r, rest⟩
    · exact absurd hr hne
    · rcases rest with _ | ⟨r2, rest2⟩ <;>
        simp [mockRun, mockInvoke, hr]
  | succ n ih =>
    intro st hne
    rcases hr : st.responses with _ | ⟨r, rest⟩
    · exact absurd hr hne
    · rcases rest with _ | ⟨r2, rest2⟩
      · have hstep : (mockInvoke st req).state.responses = [r] := by
          simp [mockInvoke, hr]
        have hih := ih (mockInvoke st req).state (by rw [hstep]; simp)
        rw [hstep] at hih
        simp only [mockRun]
        rw [hih]
        congr 1
        simp only [List.length_cons, List.length_nil]
        omega
      · have hstep : (mockInvoke st req).state.responses = r2 :: rest2 := by
          simp [mockInvoke, hr]
        have hih := ih (mockInvoke st req).state (by rw [hstep]; simp)
        rw [hstep] at hih
        simp only [mockRun]
        rw [hih]
        have hidx : min (n + 1 + 1) (r :: r2 :: rest2).length - 1
            = (min (n + 1) (r2 :: rest2).length - 1) + 1 := by
          simp only [List.length_cons]
          omega
        rw [hidx, List.getD_cons_succ]

/-- Claim C9: with a non-empty registered response sequence, the i-th
`Invoke` call (counting from 1) returns the response at position
`min i n` of the sequence — consumed in order, final entry repeating. -/
theorem mock_sequencing (st : MockState) (req : InvokeRequest) (i : Nat)
    (hne : st.responses ≠ []) (hi : 1 ≤ i) :
    mockRun st req (i - 1)
      = st.responses.getD (min i st.responses.length - 1) {} := by
  obtain ⟨n, rfl⟩ : ∃ n, i = n + 1 := ⟨i - 1, by omega⟩
  simpa using mockRun_getD req n st hne

/-- Witness for C9: registering `[first, second]` and invoking three
times yields `second` on the third call (and `first`, `second` on the
first two). -/
theorem mock_sequencing_witness :
    mockRun (mockSetResponses {} [stubResponse, { content := [⟨"text".data, "second".data⟩] }]) {} (1 - 1)
      = stubResponse
    ∧ mockRun (mockSetResponses {} [stubResponse, { content := [⟨"text".data, "second".data⟩] }]) {} (2 - 1)
      = { content := [⟨"text".data, "second".data⟩] }
    ∧ mockRun (mockSetResponses {} [stubResponse, { content := [⟨"text".data, "second".data⟩] }]) {} (3 - 1)
      = { content := [⟨"text".data, "second".data⟩] } := by
  refine ⟨?_, ?_, ?_⟩
  · exact (mock_sequencing _ {} 1 (by simp [mockSetResponses]) (by omega)).trans rfl
  · exact (mock_sequencing _ {} 2 (by simp [mockSetResponses]) (by omega)).trans rfl
  · exact (mock_sequencing _ {} 3 (by simp [mockSetResponses]) (by omega)).trans rfl

/-- Claim C10: the mock's `Invoke` never fails (the Go error return is
always nil and a response is always produced), appends the request to the
call log, and, with no registered responses and no user message — or a
most recent user message with no non-empty text block — returns text
exactly `[mock] ` (the prefix followed by the empty prompt). -/
theorem mock_never_fails (st : MockState) (req : InvokeRequest) :
    (mockInvoke st req).err = none
    ∧ (mockInvoke st req).state.callLog = st.callLog ++ [req]
    ∧ (st.responses = [] → (∀ m ∈ req.messages, m.role ≠ "user".data) →
        (mockInvoke st req).resp.content = [⟨"text".data, "[mock] ".data⟩])
    ∧ (∀ (pre post : List Message) (blocks : List ContentBlock),
        st.responses = [] →
        req.messages = pre ++ ⟨"user".data, blocks⟩ :: post →
        (∀ m ∈ post, m.role ≠ "user".data) →
        (∀ b ∈ blocks, ¬(b.type = "text".data ∧ b.text ≠ [])) →
        (mockInvoke st req).resp.content = [⟨"text".data, "[mock] ".data⟩]) := by
  refine ⟨?_, ?_, ?_, ?_⟩
  · rcases hr : st.responses with _ | ⟨r, rest⟩
    · simp [mockInvoke, hr]
    · rcases rest with _ | ⟨r2, rest2⟩ <;> simp [mockInvoke, hr]
  · rcases hr : st.responses with _ | ⟨r, rest⟩
    · simp [mockInvoke, hr]
    · rcases rest with _ | ⟨r2, rest2⟩ <;> simp [mockInvoke, hr]
  · intro hresp hnouser
    have hprompt : promptOf req.messages = [] :=
      lastUserPromptAux_eq_nil _ fun m hm => hnouser m (by simpa using hm)
    simp [mockInvoke, hresp, hprompt]
  · intro pre post blocks hresp hmsgs hpost hblocks
    have hprompt : promptOf req.messages = [] := by
      rw [hmsgs, promptOf_decomp _ _ _ hpost]
      exact firstTextOf_eq_nil _ hblocks
    simp [mockInvoke, hresp, hprompt]

/-- Witness for C10 at a concrete request with no messages. -/
theorem mock_never_fails_witness :
    (mockInvoke {} {}).err = none
    ∧ (mockInvoke {} {}).state.callLog = [({} : InvokeRequest)]
    ∧ (mockInvoke {} {}).resp.content = [⟨"text".data, "[mock] ".data⟩] := by
  obtain ⟨h1, h2, h3, _⟩ := mock_never_fails {} {}
  exact ⟨h1, h2, h3 rfl (by simp)⟩

/-- A concrete provider reply used by the C7 witness: one text block, one
non-text block. -/
def sampleAnthropicResponse : AnthropicResponse :=
  { content := [⟨"text".data, "hi".data⟩, ⟨"tool_use".data, "x".data⟩]
  , model := "claude-sonnet-4-6".data
  , stopReason := "end_turn".data
  , usage := { inputTokens := 3, outputTokens := 5 } }

/-- Claim C7: the direct-provider `Invoke` sends the provider request
built with `MapModel`, a `max_tokens` default of 1024 exactly when the
request's `maxTokens` is zero, `system`/`temperature` passed through and
messages converted by the codec; and on a successful reply it returns the
reply's text-typed blocks in order (non-text blocks dropped) with the
usage token counters mapped through. -/
theorem anthropic_invoke_spec (fs : FileSys)
    (tr : AnthropicRequest → HttpReply) (req : InvokeRequest)
    (apiResp : AnthropicResponse)
    (hstatus : (tr { model := MapModel req.model
                   , maxTokens := if req.maxTokens = 0 then 1024 else req.maxTokens
                   , system := req.system
                   , temperature := req.temperature
                   , messages := convertMessages fs req.messages }).status = 200)
    (hbody : (tr { model := MapModel req.model
                 , maxTokens := if req.maxTokens = 0 then 1024 else req.maxTokens
                 , system := req.system
                 , temperature := req.temperature
                 , messages := convertMessages fs req.messages }).asSuccess
        = some apiResp) :
    anthropicInvoke fs tr req
      = .ok { content :=
                (apiResp.content.filter fun block => block.type = "text".data).map
                  fun block => ⟨"text".data, block.text⟩
            , model := apiResp.model
            , usage := { inputTokens := apiResp.usage.inputTokens
                       , outputTokens := apiResp.usage.outputTokens }
            , stopReason := apiResp.stopReason } := by
  simp only [anthropicInvoke, hstatus, hbody, ne_eq, not_true_eq_false, if_false,
    reduceCtorEq, reduceIte]

/-- Witness for C7 at concrete inputs: `maxTokens = 0` defaults to 1024,
and the non-text `tool_use` block is dropped from the projection. -/
theorem anthropic_invoke_spec_witness :
    anthropicInvoke (fun _ => none)
        (fun _ => { status := 200, asSuccess := some sampleAnthropicResponse })
        { model := ModelSonnet46 }
      = .ok { content := [⟨"text".data, "hi".data⟩]
            , model := "claude-sonnet-4-6".data
            , usage := { inputTokens := 3, outputTokens := 5 }
            , stopReason := "end_turn".data } := by
  have h := anthropic_invoke_spec (fun _ => none)
    (fun _ => { status := 200, asSuccess := some sampleAnthropicResponse })
    { model := ModelSonnet46 } sampleAnthropicResponse rfl rfl
  exact h.trans (by rfl)

/-! ### Base64 and extension lemmas -/

/-- Classifying the encoding of a data sextet recovers it. -/
theorem charToSym_symToChar : ∀ n < 64, charToSym (symToChar (B64Sym.six n)) = B64Sym.six n := by
  decide

/-- Classifying the padding character recovers the pad symbol. -/
theorem charToSym_pad : charToSym (symToChar B64Sym.pad) = B64Sym.pad := by
  decide

/-- Standard base64 with padding decodes its own encoding: the read–encode
round trip of `convertEFSDocument` loses no byte. -/
theorem b64_roundtrip (bs : List Nat) (h : ∀ b ∈ bs, b < 256) :
    b64Decode (b64Encode bs) = some bs := by
  induction bs using bytesToSyms.induct with
  | case1 a b c rest ih =>
    have ha : a < 256 := h a (by simp)
    have hb : b < 256 := h b (by simp)
    have hc : c < 256 := h c (by simp)
    have ihr := ih fun x hx => h x (by simp [hx])
    simp only [b64Decode, b64Encode] at ihr ⊢
    simp only [bytesToSyms, List.map_cons]
    rw [charToSym_symToChar _ (by omega), charToSym_symToChar _ (by omega),
      charToSym_symToChar _ (by omega), charToSym_symToChar _ (by omega)]
    simp only [decodeSyms, ihr, Option.map_some']
    refine congrArg some ?_
    have e1 : a / 4 * 4 + (a % 4 * 16 + b / 16) / 16 = a := by omega
    have e2 : (a % 4 * 16 + b / 16) % 16 * 16 + (b % 16 * 4 + c / 64) / 4 = b := by omega
    have e3 : (b % 16 * 4 + c / 64) % 4 * 64 + c % 64 = c := by omega
    rw [e1, e2, e3]
  | case2 a b =>
    have ha : a < 256 := h a (by simp)
    have hb : b < 256 := h b (by simp)
    simp only [b64Decode, b64Encode, bytesToSyms, List.map_cons, List.map_nil]
    rw [charToSym_symToChar _ (by omega), charToSym_symToChar _ (by omega),
      charToSym_symToChar _ (by omega), charToSym_pad]
    simp only [decodeSyms]
    refine congrArg some ?_
    have e1 : a / 4 * 4 + (a % 4 * 16 + b / 16) / 16 = a := by omega
    have e2 : (a % 4 * 16 + b / 16) % 16 * 16 + b % 16 * 4 / 4 = b := by omega
    rw [e1, e2]
  | case3 a =>
    have ha : a < 256 := h a (by simp)
    simp only [b64Decode, b64Encode, bytesToSyms, List.map_cons, List.map_nil]
    rw [charToSym_symToChar _ (by omega), charToSym_symToChar _ (by omega),
      charToSym_pad]
    simp only [decodeSyms]
    refine congrArg some ?_
    have e1 : a / 4 * 4 + a % 4 * 16 / 16 = a := by omega
    rw [e1]
  | case4 =>
    rfl

/-- `filepath.Ext` of a path ending in `.pdf` is `.pdf`, for any
directory/stem prefix. -/
theorem filepathExt_pdf (base : Str) :
    filepathExt (base ++ ".pdf".data) = ".pdf".data := by
  unfold filepathExt
  rw [show (".pdf".data : Str) = '.' :: 'p' :: 'd' :: 'f' :: [] from rfl,
    List.reverse_append]
  simp [extRevAux]

/-- Claim C6: converting an `efs_document` block whose path ends in
`.pdf` and reads bytes `B` yields a base64 document block with media type
`application/pdf` whose data decodes back to exactly `B`; the media type
comes from the extension table, with every unknown extension mapping to
`application/octet-stream`. -/
theorem efs_pdf_roundtrip (fs : FileSys) (base : Str) (B : List Nat)
    (hfs : fs (base ++ ".pdf".data) = some B) (hB : ∀ b ∈ B, b < 256) :
    convertContentBlock fs { type := "efs_document".data, path := base ++ ".pdf".data }
      = .document ⟨"base64".data, "application/pdf".data, b64Encode B⟩
    ∧ b64Decode (b64Encode B) = some B
    ∧ docMediaType "pdf".data = "application/pdf".data
    ∧ docMediaType "csv".data = "text/csv".data
    ∧ docMediaType "txt".data = "text/plain".data
    ∧ docMediaType "md".data = "text/markdown".data
    ∧ docMediaType "html".data = "text/html".data
    ∧ (∀ e : Str, e ≠ "pdf".data → e ≠ "csv".data → e ≠ "txt".data →
        e ≠ "md".data → e ≠ "html".data →
        docMediaType e = "application/octet-stream".data) := by
  refine ⟨?_, b64_roundtrip B hB, by decide, by decide, by decide, by decide, by decide, ?_⟩
  · have hne : (base ++ ".pdf".data : Str) ≠ [] := by
      simp [List.append_eq_nil]
    have e1 : ("efs_document".data : Str) ≠ "text".data := by decide
    have e2 : ("efs_document".data : Str) ≠ "image".data := by decide
    have e3 : ("efs_document".data : Str) ≠ "document".data := by decide
    simp only [convertContentBlock, convertEFSDocument, e1, e2, e3, if_neg, if_false,
      reduceIte, hne, hfs]
    rw [filepathExt_pdf]
    rfl
  · intro e h1 h2 h3 h4 h5
    simp [docMediaType, h1, h2, h3, h4, h5]

/-- Witness for C6 at concrete inputs: bytes `[0, 255, 7]` at path
`a.pdf` encode to the document block with data `AP8H`, which decodes back
to the original bytes. -/
theorem efs_pdf_roundtrip_witness :
    convertContentBlock (fun _ => some [0, 255, 7])
        { type := "efs_document".data, path := "a".data ++ ".pdf".data }
      = .document ⟨"base64".data, "application/pdf".data, b64Encode [0, 255, 7]⟩
    ∧ b64Decode (b64Encode [0, 255, 7]) = some [0, 255, 7]
    ∧ b64Encode [0, 255, 7] = "AP8H".data := by
  obtain ⟨h1, h2, _⟩ := efs_pdf_roundtrip (fun _ => some [0, 255, 7]) ("a".data)
    [0, 255, 7] rfl (by decide)
  exact ⟨h1, h2, by decide⟩

end PennsieveLLM
